import Mathlib

/-!
Verification of the failure-pattern detection / escalation engine and the
staged security-audit pipeline of this repository.

The definitions below are a shallow embedding of the TypeScript source:
* `apps/open-swe/src/graphs/programmer/nodes/smart-error-recovery.ts`
  (recovery strategy selector, circuit breaker, report synthesizer
  `parseSecurityAnalysis`),
* `apps/open-swe/src/graphs/security-auditor/index.ts`
  (transcript grouper, error rates, stuck-pattern detection, smart-recovery
  trigger, graph routing),
* `apps/open-swe/src/graphs/security-auditor/nodes/initialize-security-audit.ts`
  and `.../generate-security-recommendations.ts` (pipeline stages).

External collaborators (the model invocation, the sandboxed shell) are
modelled by explicit outcome parameters; shared mutable per-thread state is
modelled by explicit state passing.  Message `content` values are modelled
as plain strings (the runs in scope only ever place strings there), and the
JavaScript string operations in scope (`includes`, `toLowerCase`, `trim`,
`split`) are modelled over the underlying character lists.
-/

/-- Message roles as distinguished by `isAIMessage` / `isToolMessage` in the
source; `other` stands for every remaining kind (human, system, ...). -/
inductive MsgRole where
  | ai
  | tool
  | other
deriving DecidableEq, Repr

/-- The `status` field of a tool message (`"success"` / `"error"`), with
`unset` for messages that carry no status. -/
inductive ToolStatus where
  | success
  | error
  | unset
deriving DecidableEq, Repr

/-- A conversation message, restricted to the fields the analysed code
reads: role, tool status, tool `name`, string `content`, the number of
`tool_calls` carried by an AI message, and the
`additional_kwargs.is_diagnosis` flag of a tool message. -/
structure Message where
  role : MsgRole
  status : ToolStatus := ToolStatus.unset
  name : String := ""
  content : String := ""
  toolCallCount : Nat := 0
  isDiagnosis : Bool := false
deriving DecidableEq, Repr

/-- Embeds `isAIMessage` from `@langchain/core/messages`, specialised to the model. -/
def isAI (m : Message) : Bool :=
  m.role = MsgRole.ai

/-- Embeds `isToolMessage` from `@langchain/core/messages`, specialised to the model. -/
def isTool (m : Message) : Bool :=
  m.role = MsgRole.tool

/-- The `LLMTask` enum members used by `smart-error-recovery.ts`. -/
inductive LLMTask where
  | programmer
  | planner
  | summarizer
deriving DecidableEq, Repr

/-- The fixed `modelRotation` list of `selectRecoveryModel`
(smart-error-recovery.ts lines 189 to 193): index 0 is PROGRAMMER (the
source comments call it the fresh-perspective first attempt), index 1 is
PLANNER, index 2 is SUMMARIZER. -/
def modelRotation : List LLMTask :=
  [LLMTask.programmer, LLMTask.planner, LLMTask.summarizer]

/-- Embeds `selectRecoveryModel` (smart-error-recovery.ts lines 187 to 197):
`modelRotation[retryCount % modelRotation.length]`.  The config and error
type arguments are unused in the source and omitted here. -/
def selectRecoveryModel (retryCount : Nat) : LLMTask :=
  (modelRotation.getD (retryCount % modelRotation.length) LLMTask.programmer)

/-- The per-thread `RecoveryState` of smart-error-recovery.ts, restricted to
the fields the control flow reads (`errorPatterns` and
`alternativeApproaches` only feed the prompt text handed to the external
model and are dropped). -/
structure RecoveryState where
  retryCount : Nat
  lastModelUsed : LLMTask
deriving DecidableEq, Repr

/-- The state created lazily on the first invocation for a thread
(smart-error-recovery.ts lines 231 to 239). -/
def freshRecoveryState : RecoveryState :=
  { retryCount := 0, lastModelUsed := LLMTask.summarizer }

/-- Outcome of the external model invocation inside `smartErrorRecovery`:
either the response carries a first tool call, or it carries none. -/
inductive ModelOutcome where
  | toolCall
  | noToolCall
deriving DecidableEq, Repr

/-- Observable result of one `smartErrorRecovery` invocation: the
circuit-breaker human-help request carrying the retry count, a successful
diagnosis (model used plus retry count), or the thrown
`Failed to generate a tool call when diagnosing error.` hard failure. -/
inductive RecoveryOutcome where
  | humanHelp (retryCount : Nat)
  | diagnosed (modelUsed : LLMTask) (retryCount : Nat)
  | hardFailure
deriving DecidableEq, Repr

/-- One invocation of `smartErrorRecovery` (smart-error-recovery.ts lines
223 to 351) on the recovery state of its thread.  The source first performs
`recoveryState.retryCount++` on the shared per-thread object, then checks
the circuit breaker (`retryCount > 5`), then selects the recovery model and
calls the external model; a response without a tool call throws, which
leaves the already-incremented shared state in place.  The returned pair is
(recovery state left in the shared map, observable outcome). -/
def smartErrorRecoveryStep (rs : RecoveryState) (resp : ModelOutcome) :
    RecoveryState × RecoveryOutcome :=
  let rs1 : RecoveryState := { rs with retryCount := rs.retryCount + 1 }
  if 5 < rs1.retryCount then
    (rs1, RecoveryOutcome.humanHelp rs1.retryCount)
  else
    match resp with
    | ModelOutcome.noToolCall => (rs1, RecoveryOutcome.hardFailure)
    | ModelOutcome.toolCall =>
        let recoveryModel := selectRecoveryModel rs1.retryCount
        ({ rs1 with lastModelUsed := recoveryModel },
          RecoveryOutcome.diagnosed recoveryModel rs1.retryCount)

/-- The recovery state of a thread after `n` invocations of
`smartErrorRecovery`, starting from the freshly created state; `resps k` is
the model outcome observed during invocation `k + 1`. -/
def runRecovery (resps : Nat → ModelOutcome) : Nat → RecoveryState
  | 0 => freshRecoveryState
  | n + 1 => (smartErrorRecoveryStep (runRecovery resps n) (resps n)).1

/-- The observable outcome of invocation `n + 1` (zero-indexed by `n`) of
`smartErrorRecovery` on a thread that started from the fresh state. -/
def recoveryOutcomeAt (resps : Nat → ModelOutcome) (n : Nat) : RecoveryOutcome :=
  (smartErrorRecoveryStep (runRecovery resps n) (resps n)).2

/-- Substring test over character lists: `containsSub need hay` holds iff
`need` occurs contiguously inside `hay`; this is JavaScript
`hay.includes(need)`. -/
def containsSub (need : List Char) : List Char → Bool
  | [] => need.isEmpty
  | c :: t => need.isPrefixOf (c :: t) || containsSub need t

/-- JavaScript `s.includes(sub)` on strings. -/
def strIncludes (s sub : String) : Bool :=
  containsSub sub.data s.data

/-- JavaScript `s.toLowerCase()`, restricted to the ASCII range exercised by
the keyword lists of the source. -/
def lowerStr (s : String) : String :=
  String.mk (s.data.map Char.toLower)

/-- JavaScript `\s` whitespace characters in the ASCII range. -/
def isJsSpace (c : Char) : Bool :=
  c == ' ' || c == '\t' || c == '\n' || c == '\r' || c == '\x0b' || c == '\x0c'

/-- JavaScript `s.trim()`, restricted to ASCII whitespace. -/
def trimChars (s : String) : String :=
  String.mk (((s.data.dropWhile isJsSpace).reverse.dropWhile isJsSpace).reverse)

/-- JavaScript `s.substring(0, n)` under the character-list model. -/
def takeChars (n : Nat) (s : String) : String :=
  String.mk (s.data.take n)

/-- JavaScript `array.join(sep)`. -/
def joinWith (sep : String) : List String → String
  | [] => ""
  | [x] => x
  | x :: y :: xs => x ++ sep ++ joinWith sep (y :: xs)

/-- Helper of `splitLines`: accumulates the current line reversed. -/
def splitLinesAux : List Char → List Char → List String
  | [], acc => [String.mk acc.reverse]
  | c :: rest, acc =>
      if c = '\n' then String.mk acc.reverse :: splitLinesAux rest []
      else splitLinesAux rest (c :: acc)

/-- JavaScript `analysisText.split('\n')` (parseSecurityAnalysis line 446). -/
def splitLines (s : String) : List String :=
  splitLinesAux s.data []

/-- Embeds `criticalKeywords` of `parseSecurityAnalysis`
(smart-error-recovery.ts concatenation, finalize node line 431). -/
def criticalKeywords : List String :=
  ["critical", "severe", "high risk", "vulnerability"]

/-- Embeds `highKeywords` of `parseSecurityAnalysis` (line 432). -/
def highKeywords : List String :=
  ["important", "significant", "security issue"]

/-- Embeds `mediumKeywords` of `parseSecurityAnalysis` (line 433). -/
def mediumKeywords : List String :=
  ["consider", "recommend", "improve"]

/-- Embeds `keywords.some(keyword => analysisText.toLowerCase().includes(keyword))`. -/
def textHasAnyKeyword (keywords : List String) (text : String) : Bool :=
  keywords.any fun kw => strIncludes (lowerStr text) kw

/-- The `overallRisk` values of a `SecurityAuditReport`. -/
inductive RiskLevel where
  | critical
  | high
  | medium
  | low
deriving DecidableEq, Repr

/-- The overall-risk classification of `parseSecurityAnalysis` (lines 435 to
443): strict if / else-if priority over the three keyword tiers. -/
def overallRiskOf (analysisText : String) : RiskLevel :=
  if textHasAnyKeyword criticalKeywords analysisText then RiskLevel.critical
  else if textHasAnyKeyword highKeywords analysisText then RiskLevel.high
  else if textHasAnyKeyword mediumKeywords analysisText then RiskLevel.medium
  else RiskLevel.low

/-- The character class `[\d\-\*]` of the recommendation-line regexes. -/
def isMarkerChar (c : Char) : Bool :=
  c.isDigit || c == '-' || c == '*'

/-- The test
`line.match(/^[\d\-\*]\s*.*recommend|^[\d\-\*]\s*.*should|^[\d\-\*]\s*.*consider/i)`
(line 448): the line starts with one marker character and, since `\s*` and
`.*` may absorb any prefix of the remainder, the remainder contains one of
the three keywords case-insensitively.  Lines produced by `splitLines`
contain no newline, so `.*` ranges over the whole remainder. -/
def matchesRecPattern (line : String) : Bool :=
  match line.data with
  | [] => false
  | c :: rest =>
      isMarkerChar c &&
        (containsSub "recommend".data (rest.map Char.toLower)
          || containsSub "should".data (rest.map Char.toLower)
          || containsSub "consider".data (rest.map Char.toLower))

/-- Embeds `line.replace(/^[\d\-\*]\s*/, '')` (line 449): when the first character
is a marker character, that single character and the following whitespace
run are removed; otherwise the anchored regex does not match and the line
is unchanged. -/
def stripRecMarker (line : String) : String :=
  match line.data with
  | [] => line
  | c :: rest =>
      if isMarkerChar c then String.mk (rest.dropWhile isJsSpace) else line

/-- The value pushed for one line of the recommendation-extraction loop
(lines 447 to 451), `none` when the line is not captured. -/
def recLineResult (line : String) : Option String :=
  if matchesRecPattern line then some (trimChars (stripRecMarker line)) else none

/-- The recommendation-extraction loop over all lines, in document order,
before the `slice(0, 10)` cap applied by the report constructor. -/
def extractRecommendations (lines : List String) : List String :=
  lines.filterMap recLineResult

/-- A line whose first character is not a digit, dash, or asterisk (or the
empty line): the condition of the never-captured half of claim C2. -/
def lineHeadNotMarker (line : String) : Bool :=
  match line.data with
  | [] => true
  | c :: _ => !isMarkerChar c

/-- A structured vulnerability of a `SecurityAuditReport`
(packages/shared security-auditor/types.ts); severities are the five-level
literal union of the source. -/
structure SecurityVulnerability where
  severity : String
  category : String
  description : String
  file : String
  line : Option Nat := none
  recommendation : String
  cweId : Option String := none
deriving DecidableEq, Repr

/-- Embeds `SecurityAuditReport` (packages/shared security-auditor/types.ts). -/
structure SecurityAuditReport where
  vulnerabilities : List SecurityVulnerability
  summary : String
  overallRisk : RiskLevel
  recommendations : List String
deriving DecidableEq, Repr

/-- Embeds `analysisText` of `parseSecurityAnalysis` (lines 419 to 422): the
non-empty string contents of the audit messages joined with blank lines
(the `|| ''` fallback coincides with the join of the empty list). -/
def analysisTextOf (auditMessages : List Message) : String :=
  joinWith "\n\n"
    ((auditMessages.map Message.content).filter fun c => decide (0 < c.length))

/-- Embeds `parseSecurityAnalysis` (finalize node, lines 417 to 463): risk from the
keyword tiers, recommendations from the line loop capped at 10, summary
truncated past 500 characters with an ellipsis and defaulted when empty,
vulnerabilities always left empty. -/
def parseSecurityAnalysis (auditMessages : List Message) : SecurityAuditReport :=
  let analysisText := analysisTextOf auditMessages
  let recommendations := extractRecommendations (splitLines analysisText)
  let summary :=
    if 500 < analysisText.length then takeChars 500 analysisText ++ "..."
    else if analysisText = "" then
      "Security audit completed with no specific issues identified."
    else analysisText
  { vulnerabilities := []
    summary := summary
    overallRisk := overallRiskOf analysisText
    recommendations := recommendations.take 10 }

/-- Outcome of one `executeCommand` call of the shell-executor collaborator:
the command completed with an exit code and output text, or the call threw. -/
inductive ExecResult where
  | completed (exitCode : Int) (result : String)
  | thrown
deriving DecidableEq, Repr

/-- Changed-file retrieval failed: non-zero exit code or a thrown error. -/
def execFailed : ExecResult → Bool
  | ExecResult.completed exitCode _ => exitCode != 0
  | ExecResult.thrown => true

/-- Embeds `getChangedFiles` (initialize-security-audit.ts lines 47 to 74) as a
function of the outcome of its `git diff <base> --name-only` command: the
trimmed output on success, the fixed sentinel string on a non-zero exit
code or a thrown error. -/
def getChangedFiles (diffRes : ExecResult) : String :=
  match diffRes with
  | ExecResult.completed exitCode result =>
      if exitCode ≠ 0 then "Failed to get changed files." else trimChars result
  | ExecResult.thrown => "Failed to get changed files."

/-- Embeds `getBaseBranchName` (initialize-security-audit.ts lines 76 to 104): the
trimmed `git config init.defaultBranch` output on success, `"main"` on a
non-zero exit code or a thrown error. -/
def getBaseBranchName (branchRes : ExecResult) : String :=
  match branchRes with
  | ExecResult.completed exitCode result =>
      if exitCode ≠ 0 then "main" else trimChars result
  | ExecResult.thrown => "main"

/-- Embeds `initializeSecurityAudit` lines 122 to 125: the state branch when it is
truthy (non-empty under the string model), otherwise the branch lookup. -/
def resolveBaseBranch (stateBranch : String) (branchRes : ExecResult) : String :=
  if stateBranch = "" then getBaseBranchName branchRes else stateBranch

/-- Embeds `initializeSecurityAudit` lines 127 to 129: the `changedFiles` value of
the Initialize update — the diff retrieval when the resolved base branch is
truthy, the empty string otherwise. -/
def initializeChangedFiles (stateBranch : String)
    (branchRes diffRes : ExecResult) : String :=
  if resolveBaseBranch stateBranch branchRes = "" then ""
  else getChangedFiles diffRes

/-- Embeds `createSecurityAuditStartedMessage` (initialize-security-audit.ts lines
17 to 45): the AI message carrying the `security_audit_started` tool call
paired with its tool result. -/
def securityAuditStartedMessages : List Message :=
  [{ role := MsgRole.ai,
     content := "🔒 Starting security audit of code changes...",
     toolCallCount := 1 },
   { role := MsgRole.tool, content := "Security audit initialized" }]

/-- Outcome of the Scan stage's collaborator work (sandbox, diff and model
call together): the model answered with analysis text, or some step threw. -/
inductive ScanOutcome where
  | modelResponse (text : String)
  | failure
deriving DecidableEq, Repr

/-- The state fields written by `scanCodeChanges`. -/
structure ScanUpdate where
  scannedFiles : String
  auditMessages : List Message
deriving DecidableEq, Repr

/-- Embeds `scanCodeChanges` (generate-security-recommendations.ts concatenation,
scan node lines 190 to 252): when `changedFiles` is empty or blank, emit
the no-changes notice without any model call; otherwise emit the model's
analysis text, or the fixed failure notice when the stage threw. -/
def scanCodeChanges (changedFiles : String) (outcome : ScanOutcome) : ScanUpdate :=
  if trimChars changedFiles = "" then
    { scannedFiles := "No files changed"
      auditMessages :=
        [{ role := MsgRole.ai,
           content := "ℹ️ No code changes detected to scan for security vulnerabilities." }] }
  else
    match outcome with
    | ScanOutcome.modelResponse text =>
        { scannedFiles := changedFiles
          auditMessages := [{ role := MsgRole.ai, content := text }] }
    | ScanOutcome.failure =>
        { scannedFiles := changedFiles
          auditMessages :=
            [{ role := MsgRole.ai,
               content := "❌ Failed to complete security scan due to an error. Please review the code changes manually for potential security vulnerabilities." }] }

/-- The `auditMessages` state when the routing function runs: the messages
appended by Initialize followed by those appended by Scan (the
`messagesStateReducer` of the state schema appends messages with fresh
ids). -/
def auditMessagesAfterScan (changedFiles : String) (outcome : ScanOutcome) :
    List Message :=
  securityAuditStartedMessages ++ (scanCodeChanges changedFiles outcome).auditMessages

/-- The two routing targets of the conditional edge after Scan. -/
inductive NextNode where
  | generateSecurityRecommendations
  | finalizeSecurityReport
deriving DecidableEq, Repr

/-- Embeds `proceedToRecommendationsOrFinalize` (security-auditor index.ts lines 15
to 27): reads `auditMessages[auditMessages.length - 1]` and branches on it
being an AI message with at least one tool call.  The `none` branch models
the out-of-bounds read on an empty list; claim C9 shows that branch is
never reached. -/
def proceedToRecommendationsOrFinalize (auditMessages : List Message) : NextNode :=
  match auditMessages.getLast? with
  | some lastMessage =>
      if isAI lastMessage && decide (0 < lastMessage.toolCallCount) then
        NextNode.generateSecurityRecommendations
      else
        NextNode.finalizeSecurityReport
  | none => NextNode.finalizeSecurityReport

/-- Outcome of the Recommend stage's model call. -/
inductive RecommendOutcome where
  | modelResponse (text : String)
  | failure
deriving DecidableEq, Repr

/-- The audit messages appended by `generateSecurityRecommendations`
(lines 60 to 107): the model's recommendations text, or the fixed failure
notice when the stage threw. -/
def recommendAuditMessages : RecommendOutcome → List Message
  | RecommendOutcome.modelResponse text => [{ role := MsgRole.ai, content := text }]
  | RecommendOutcome.failure =>
      [{ role := MsgRole.ai,
         content := "❌ Failed to generate security recommendations due to an error. Please manually review the security analysis and create appropriate recommendations." }]

/-- The `riskEmoji` table of `createSecurityCompletedMessage` (finalize
node lines 376 to 381). -/
def riskEmoji : RiskLevel → String
  | RiskLevel.critical => "🚨"
  | RiskLevel.high => "⚠️"
  | RiskLevel.medium => "⚡"
  | RiskLevel.low => "ℹ️"

/-- Embeds `overallRisk.toUpperCase()` over the four risk literals. -/
def riskUpper : RiskLevel → String
  | RiskLevel.critical => "CRITICAL"
  | RiskLevel.high => "HIGH"
  | RiskLevel.medium => "MEDIUM"
  | RiskLevel.low => "LOW"

/-- The trimmed summary template of `createSecurityCompletedMessage`
(finalize node lines 383 to 395). -/
def securityCompletedSummary (report : SecurityAuditReport) : String :=
  trimChars
    ("\n" ++ riskEmoji report.overallRisk ++ " **Security Audit Complete**\n\n**Overall Risk Level:** "
      ++ riskUpper report.overallRisk
      ++ "\n**Vulnerabilities Found:** " ++ toString report.vulnerabilities.length
      ++ "\n**Files Scanned:** Changed files in this session\n\n"
      ++ report.summary ++ "\n\n"
      ++ (if 0 < report.recommendations.length then
            "**Key Recommendations:**\n"
              ++ joinWith "\n"
                  ((report.recommendations.take 3).enum.map fun p =>
                    toString (p.1 + 1) ++ ". " ++ p.2)
          else "")
      ++ "\n\nSee detailed security analysis above for complete findings and recommendations.\n  ")

/-- Embeds `createSecurityCompletedMessage` (finalize node lines 364 to 415): the
AI summary message carrying the `security_audit_completed` tool call paired
with its tool result. -/
def securityCompletedMessages (report : SecurityAuditReport) : List Message :=
  [{ role := MsgRole.ai, content := securityCompletedSummary report,
     toolCallCount := 1 },
   { role := MsgRole.tool, content := "Security audit completed successfully" }]

/-- The Finalize stage on its non-throwing path (finalize node lines 471 to
484): the synthesised report and the messages it appends. -/
def finalizeSecurityReportUpdate (auditMessages : List Message) :
    SecurityAuditReport × List Message :=
  let securityReport := parseSecurityAnalysis auditMessages
  (securityReport, securityCompletedMessages securityReport)

/-- The fixed fallback report of the Finalize catch path (lines 488 to 493). -/
def fallbackReport : SecurityAuditReport :=
  { vulnerabilities := []
    summary := "Security audit completed but report generation failed. Please review the security analysis above manually."
    overallRisk := RiskLevel.medium
    recommendations := ["Manual review of security analysis is recommended"] }

/-- The message appended by the Finalize catch path (lines 495 to 503). -/
def finalizeFallbackMessages : List Message :=
  [{ role := MsgRole.ai,
     content := "⚠️ Security audit completed with errors. Please review the analysis above and create appropriate security measures manually." }]

/-- The scan loop of `groupToolMessagesByAIMessage` (security-auditor
index.ts lines 58 to 97), with the mutable `currentGroup` and
`processingToolsForAI` variables passed explicitly: on an AI message the
current non-empty group is emitted and collecting restarts; a non-diagnosis
tool message while collecting joins the current group; any other non-tool
message while collecting emits the current non-empty group and stops
collecting; everything else (tool messages while not collecting, diagnosis
tool messages, other messages while not collecting) is skipped; the
trailing non-empty group is emitted at the end. -/
def groupAux : List Message → List Message → Bool → List (List Message)
  | [], currentGroup, _ =>
      if currentGroup.isEmpty then [] else [currentGroup]
  | m :: rest, currentGroup, processingToolsForAI =>
      if isAI m then
        if currentGroup.isEmpty then groupAux rest [] true
        else currentGroup :: groupAux rest [] true
      else if isTool m && processingToolsForAI && !m.isDiagnosis then
        groupAux rest (currentGroup ++ [m]) processingToolsForAI
      else if !(isTool m) && processingToolsForAI then
        if currentGroup.isEmpty then groupAux rest [] false
        else currentGroup :: groupAux rest [] false
      else
        groupAux rest currentGroup processingToolsForAI

/-- Embeds `groupToolMessagesByAIMessage` (security-auditor index.ts lines 58 to
97). -/
def groupToolMessagesByAIMessage (messages : List Message) : List (List Message) :=
  groupAux messages [] false

/-- Embeds `calculateErrorRate` (security-auditor index.ts lines 104 to 108). -/
def calculateErrorRate (group : List Message) : ℚ :=
  if group.length = 0 then 0
  else ((group.filter fun m => decide (m.status = ToolStatus.error)).length : ℚ)
        / (group.length : ℚ)

/-- JavaScript `array.slice(-n)`: the last `n` elements (the whole array
when it is shorter). -/
def lastN {α : Type} (n : Nat) (l : List α) : List α :=
  l.drop (l.length - n)

/-- Embeds `commandCounts.set(key, (commandCounts.get(key) || 0) + 1)` over an
association list standing for the JavaScript `Map`. -/
def tallyBump (counts : List (String × Nat)) (k : String) : List (String × Nat) :=
  if counts.any fun p => p.1 == k then
    counts.map fun p => if p.1 == k then (p.1, p.2 + 1) else p
  else counts ++ [(k, 1)]

/-- The command tally of `checkForStuckPattern` (security-auditor index.ts
lines 199 to 221): over the last 10 messages, every adjacent pair of an AI
message immediately followed by an error tool message bumps the count of
the tool message's name (defaulted to `unknown_command` when falsy). -/
def stuckCommandCounts (messages : List Message) : List (String × Nat) :=
  let recentMessages := lastN 10 messages
  (recentMessages.zip recentMessages.tail).foldl
    (fun counts p =>
      if isAI p.1 && isTool p.2 && decide (p.2.status = ToolStatus.error) then
        tallyBump counts (if p.2.name = "" then "unknown_command" else p.2.name)
      else counts)
    []

/-- Embeds `checkForStuckPattern`: some command name failed 3 or more times in the
tallied window. -/
def checkForStuckPattern (messages : List Message) : Bool :=
  (stuckCommandCounts messages).any fun p => decide (3 ≤ p.2)

/-- The `recentDiagnosisCount` of `shouldUseSmartRecovery` (security-auditor
index.ts lines 235 to 237): diagnosis-flagged tool messages among the last
20 messages. -/
def recentDiagnosisCount (messages : List Message) : Nat :=
  ((lastN 20 messages).filter fun m => isTool m && m.isDiagnosis).length

/-- Embeds `shouldUseSmartRecovery` (security-auditor index.ts lines 229 to 256):
false with fewer than 2 tool groups; true with 2 or more recent diagnosis
attempts; true when the last 3 of at least 3 groups each have error rate at
least 0.8; otherwise the stuck-pattern check decides. -/
def shouldUseSmartRecovery (messages : List Message) : Bool :=
  let toolGroups := groupToolMessagesByAIMessage messages
  if toolGroups.length < 2 then false
  else if 2 ≤ recentDiagnosisCount messages then true
  else if 3 ≤ toolGroups.length
      ∧ ∀ g ∈ lastN 3 toolGroups, (0.8 : ℚ) ≤ calculateErrorRate g then true
  else checkForStuckPattern messages

/-- A sample AI message used by concrete witnesses. -/
def sampleAiMessage : Message :=
  { role := MsgRole.ai }

/-- A sample successful tool message used by concrete witnesses. -/
def sampleOkTool : Message :=
  { role := MsgRole.tool, status := ToolStatus.success, name := "shell" }

/-- A sample diagnosis-flagged tool message used by concrete witnesses. -/
def sampleDiagTool : Message :=
  { role := MsgRole.tool, status := ToolStatus.success, name := "diagnose_error",
    isDiagnosis := true }

/-- A sample transcript with two tool-invocation groups and two recent
diagnosis-flagged tool results. -/
def sampleSmartRecoveryMessages : List Message :=
  [sampleAiMessage, sampleOkTool, sampleAiMessage, sampleOkTool,
   sampleAiMessage, sampleDiagTool, sampleDiagTool]

theorem smartErrorRecoveryStep_retryCount (rs : RecoveryState) (resp : ModelOutcome) :
    (smartErrorRecoveryStep rs resp).1.retryCount = rs.retryCount + 1 := by
  unfold smartErrorRecoveryStep
  by_cases h : 5 < rs.retryCount + 1
  · simp [h]
  · cases resp <;> simp [h]

theorem runRecovery_retryCount (resps : Nat → ModelOutcome) (n : Nat) :
    (runRecovery resps n).retryCount = n := by
  induction n with
  | zero => rfl
  | succ n ih =>
      unfold runRecovery
      rw [smartErrorRecoveryStep_retryCount, ih]

/-- C1: the claim states the selected strategy indices for
retryCount = 1, 2, 3, 4 are [0, 1, 2, 0], with the first attempt using the
fresh-perspective PROGRAMMER strategy at index 0.  The code computes
`modelRotation[retryCount % 3]`, so the actual sequence is the models at
indices [1, 2, 0, 1]: the first attempt (retryCount = 1) selects PLANNER,
contradicting the source's own inline comments ("Start with PROGRAMMER task
for fresh perspective", "First attempt - use programmer model"). -/
theorem selectRecoveryModel_rotation_values :
    ([1, 2, 3, 4].map selectRecoveryModel
      = [LLMTask.planner, LLMTask.summarizer, LLMTask.programmer, LLMTask.planner])
    ∧ selectRecoveryModel 1 ≠ modelRotation.getD 0 LLMTask.programmer := by
  decide

/-- C10: every invocation increments `retryCount` exactly once, before the
circuit-breaker check and before the model call: the post-state retry count
is the pre-state count plus one for every model outcome (including the
missing-tool-call hard failure, so failed attempts consume breaker budget),
and the breaker outcome is decided on the incremented value independently
of the model outcome. -/
theorem smartErrorRecovery_increments_once (rs : RecoveryState) (resp : ModelOutcome) :
    ((smartErrorRecoveryStep rs resp).1.retryCount = rs.retryCount + 1)
    ∧ ((smartErrorRecoveryStep rs resp).2
        = RecoveryOutcome.humanHelp (rs.retryCount + 1) ↔ 5 < rs.retryCount + 1)
    ∧ ((smartErrorRecoveryStep rs ModelOutcome.noToolCall).2 = RecoveryOutcome.hardFailure
        ↔ rs.retryCount + 1 ≤ 5) := by
  refine ⟨smartErrorRecoveryStep_retryCount rs resp, ?_, ?_⟩
  · unfold smartErrorRecoveryStep
    by_cases h : 5 < rs.retryCount + 1
    · simp [h]
    · cases resp <;> simp [h]
  · unfold smartErrorRecoveryStep
    by_cases h : 5 < rs.retryCount + 1
    · simp [h]
      omega
    · simp [h]
      omega

/-- C4: starting from the freshly created per-thread state, invocations 1
through 5 (here `recoveryOutcomeAt resps n` is invocation `n + 1`) never
produce the human-help outcome, invocation 6 and every later invocation
produce the human-help request carrying the retry count, and the breaker
never resets `retryCount` (it stays equal to the number of invocations), so
subsequent calls keep tripping it. -/
theorem circuit_breaker_trips_after_five (resps : Nat → ModelOutcome) (n : Nat) :
    ((runRecovery resps n).retryCount = n)
    ∧ (n < 5 → ∀ k, recoveryOutcomeAt resps n ≠ RecoveryOutcome.humanHelp k)
    ∧ (5 ≤ n → recoveryOutcomeAt resps n = RecoveryOutcome.humanHelp (n + 1)) := by
  refine ⟨runRecovery_retryCount resps n, ?_, ?_⟩
  · intro hlt k
    unfold recoveryOutcomeAt smartErrorRecoveryStep
    rw [runRecovery_retryCount]
    have h : ¬ 5 < n + 1 := by omega
    cases hre : resps n <;> simp [h]
  · intro hge
    unfold recoveryOutcomeAt smartErrorRecoveryStep
    rw [runRecovery_retryCount]
    have h : 5 < n + 1 := by omega
    simp [h]

/-- Witness for C4: on a thread whose model always answers with a tool
call, invocation 1 is not the human-help outcome and invocation 6 is the
human-help request carrying retry count 6. -/
theorem circuit_breaker_trips_after_five_witness :
    (∀ k, recoveryOutcomeAt (fun _ => ModelOutcome.toolCall) 0 ≠ RecoveryOutcome.humanHelp k)
    ∧ recoveryOutcomeAt (fun _ => ModelOutcome.toolCall) 5 = RecoveryOutcome.humanHelp 6 :=
  ⟨(circuit_breaker_trips_after_five (fun _ => ModelOutcome.toolCall) 0).2.1 (by decide),
   (circuit_breaker_trips_after_five (fun _ => ModelOutcome.toolCall) 5).2.2 (by decide)⟩

/-- C6: `parseSecurityAnalysis` computes the overall risk by
case-insensitive keyword presence in strict priority order: any
critical-tier keyword forces `critical` regardless of the lower tiers (so a
text with both a critical-tier and a medium-tier keyword is `critical`),
the high tier is consulted only when the critical tier is absent, the
medium tier only when both higher tiers are absent, and a text with no tier
keyword is `low`. -/
theorem overallRisk_priority (text : String) :
    (textHasAnyKeyword criticalKeywords text = true →
      overallRiskOf text = RiskLevel.critical)
    ∧ (textHasAnyKeyword criticalKeywords text = false →
        textHasAnyKeyword highKeywords text = true →
        overallRiskOf text = RiskLevel.high)
    ∧ (textHasAnyKeyword criticalKeywords text = false →
        textHasAnyKeyword highKeywords text = false →
        textHasAnyKeyword mediumKeywords text = true →
        overallRiskOf text = RiskLevel.medium)
    ∧ (textHasAnyKeyword criticalKeywords text = false →
        textHasAnyKeyword highKeywords text = false →
        textHasAnyKeyword mediumKeywords text = false →
        overallRiskOf text = RiskLevel.low) := by
  unfold overallRiskOf
  refine ⟨?_, ?_, ?_, ?_⟩ <;> intros <;> simp [*]

/-- Witness for C6: a text containing both the critical-tier keyword
`critical` and the medium-tier keyword `consider` is classified `critical`,
and a text containing no tier keyword is classified `low`. -/
theorem overallRisk_priority_witness :
    overallRiskOf "This is critical; consider a fix" = RiskLevel.critical
    ∧ overallRiskOf "all quiet" = RiskLevel.low :=
  ⟨(overallRisk_priority "This is critical; consider a fix").1 (by decide),
   (overallRisk_priority "all quiet").2.2.2 (by decide) (by decide) (by decide)⟩

/-- Counterexample to C2 as stated: the line
`1. You should rotate credentials` is captured, but the leading-marker
replacement removes only the single character `1` (the regex class matches
one character and the following `.` is not whitespace), so the extracted
recommendation is `. You should rotate credentials`, not
`You should rotate credentials`. -/
theorem recommendation_extraction_counterexample :
    extractRecommendations (splitLines "1. You should rotate credentials")
      = [". You should rotate credentials"]
    ∧ extractRecommendations (splitLines "1. You should rotate credentials")
      ≠ ["You should rotate credentials"] := by
  decide

/-- C2 amended: for every analysis text containing the line
`1. You should rotate credentials`, the extraction loop captures that line
and yields `. You should rotate credentials` (one leading marker character
stripped, following whitespace and outer whitespace trimmed, the `.` after
the digit retained); and a line whose first character is not a digit,
dash, or asterisk is never captured. -/
theorem recommendation_extraction_amended (text : String) (line : String) :
    ("1. You should rotate credentials" ∈ splitLines text →
      ". You should rotate credentials" ∈ extractRecommendations (splitLines text))
    ∧ (lineHeadNotMarker line = true → recLineResult line = none) := by
  constructor
  · intro hmem
    exact List.mem_filterMap.mpr ⟨"1. You should rotate credentials", hmem, by decide⟩
  · intro hnm
    unfold recLineResult matchesRecPattern
    unfold lineHeadNotMarker at hnm
    cases h : line.data with
    | nil => simp [h]
    | cons c rest =>
        rw [h] at hnm
        simp only [Bool.not_eq_true'] at hnm
        simp [h, hnm]

/-- Witness for C2 amended: a concrete three-line analysis text containing
the line yields the captured value, and a concrete marker-free line
containing `should` is not captured. -/
theorem recommendation_extraction_amended_witness :
    (". You should rotate credentials"
      ∈ extractRecommendations
          (splitLines "intro\n1. You should rotate credentials\ndone"))
    ∧ recLineResult "You should not capture this" = none :=
  ⟨(recommendation_extraction_amended
      "intro\n1. You should rotate credentials\ndone" "").1 (by decide),
   (recommendation_extraction_amended
      "" "You should not capture this").2 (by decide)⟩

/-- Counterexample to C3 as stated: when the diff command throws during
Initialize (base branch already resolved to a non-empty name), the
resulting `changedFiles` value is the fixed sentinel string
`Failed to get changed files.`, which is not the empty string. -/
theorem changedFiles_sentinel_counterexample :
    initializeChangedFiles "master" ExecResult.thrown ExecResult.thrown
      = "Failed to get changed files."
    ∧ initializeChangedFiles "master" ExecResult.thrown ExecResult.thrown ≠ "" := by
  decide

/-- C3 amended: whenever changed-file retrieval fails during Initialize
(the diff command exits non-zero or throws), the resulting `changedFiles`
value is the fixed non-null sentinel string `Failed to get changed files.`
— the retrieval failure is recovered locally (both `getChangedFiles` and
`initializeChangedFiles` are total functions into `String`, so nothing is
propagated out of Initialize and the value is never null). -/
theorem changedFiles_failure_sentinel (stateBranch : String)
    (branchRes diffRes : ExecResult) (hfail : execFailed diffRes = true) :
    getChangedFiles diffRes = "Failed to get changed files."
    ∧ (resolveBaseBranch stateBranch branchRes ≠ "" →
        initializeChangedFiles stateBranch branchRes diffRes
          = "Failed to get changed files.") := by
  have hget : getChangedFiles diffRes = "Failed to get changed files." := by
    cases diffRes with
    | thrown => rfl
    | completed exitCode result =>
        unfold execFailed at hfail
        unfold getChangedFiles
        simp only [bne_iff_ne, ne_eq] at hfail
        simp [hfail]
  refine ⟨hget, fun hbb => ?_⟩
  unfold initializeChangedFiles
  rw [if_neg hbb]
  exact hget

/-- Witness for C3 amended: a non-zero diff exit code during Initialize on
branch `develop` yields the sentinel string. -/
theorem changedFiles_failure_sentinel_witness :
    getChangedFiles (ExecResult.completed 1 "") = "Failed to get changed files."
    ∧ initializeChangedFiles "develop" ExecResult.thrown (ExecResult.completed 1 "")
      = "Failed to get changed files." :=
  ⟨(changedFiles_failure_sentinel "develop" ExecResult.thrown
      (ExecResult.completed 1 "") (by decide)).1,
   (changedFiles_failure_sentinel "develop" ExecResult.thrown
      (ExecResult.completed 1 "") (by decide)).2 (by decide)⟩

/-- C5: for an audit run with an empty changed-files list, Scan emits the
no-changes notice without invoking the model (the message is the same for
every collaborator outcome), the routing function goes directly to Finalize
(the last audit message is an AI message with no tool calls, so Recommend
is never reached), and the finalized report has overall risk `low` and an
empty recommendations list. -/
theorem empty_changes_audit_run (outcome : ScanOutcome) :
    ((scanCodeChanges "" outcome).auditMessages
      = [{ role := MsgRole.ai,
           content := "ℹ️ No code changes detected to scan for security vulnerabilities." }])
    ∧ (proceedToRecommendationsOrFinalize (auditMessagesAfterScan "" outcome)
        = NextNode.finalizeSecurityReport)
    ∧ ((parseSecurityAnalysis (auditMessagesAfterScan "" outcome)).overallRisk
        = RiskLevel.low)
    ∧ ((parseSecurityAnalysis (auditMessagesAfterScan "" outcome)).recommendations
        = []) :=
  ⟨rfl, rfl, rfl, rfl⟩

/-- C9: Initialize appends the two audit-started messages on its returning
path, Scan appends exactly one message on each of its paths (no-changes
notice, model analysis, failure notice), Recommend and Finalize append a
non-empty message list on their success and failure paths, and therefore
the `auditMessages` list read by the routing function after Scan is
non-empty and its last-element access is well-defined. -/
theorem audit_stages_always_append (changedFiles : String) (outcome : ScanOutcome) :
    securityAuditStartedMessages.length = 2
    ∧ (scanCodeChanges changedFiles outcome).auditMessages.length = 1
    ∧ (∀ r : RecommendOutcome, (recommendAuditMessages r).length = 1)
    ∧ (∀ report : SecurityAuditReport, securityCompletedMessages report ≠ [])
    ∧ finalizeFallbackMessages ≠ []
    ∧ auditMessagesAfterScan changedFiles outcome ≠ []
    ∧ (auditMessagesAfterScan changedFiles outcome).getLast?.isSome = true := by
  have hscan : (scanCodeChanges changedFiles outcome).auditMessages.length = 1 := by
    unfold scanCodeChanges
    by_cases h : trimChars changedFiles = ""
    · simp [h]
    · cases outcome <;> simp [h]
  have hne : auditMessagesAfterScan changedFiles outcome ≠ [] := by
    unfold auditMessagesAfterScan securityAuditStartedMessages
    simp
  refine ⟨rfl, hscan, fun r => by cases r <;> rfl,
    fun report => by simp [securityCompletedMessages],
    by simp [finalizeFallbackMessages], hne, ?_⟩
  rw [List.getLast?_isSome]
  exact hne

theorem isAI_not_isTool {m : Message} (h : isAI m = true) : isTool m = false := by
  unfold isAI at h
  unfold isTool
  simp only [decide_eq_true_eq] at h
  simp [h]

theorem groupAux_sound (ms : List Message) :
    ∀ (cur : List Message) (p : Bool),
      (∀ x ∈ cur, isTool x = true ∧ x.isDiagnosis = false) →
      (∀ g ∈ groupAux ms cur p, g ≠ [] ∧ ∀ x ∈ g, isTool x = true ∧ x.isDiagnosis = false)
      ∧ ((groupAux ms cur p).flatten).Sublist (cur ++ ms.filter fun x => isTool x) := by
  induction ms with
  | nil =>
      intro cur p hcur
      unfold groupAux
      by_cases hce : cur.isEmpty
      · simp [hce]
      · constructor
        · intro g hg
          simp only [if_neg hce, List.mem_singleton] at hg
          subst hg
          exact ⟨fun hnil => hce (by rw [hnil]; rfl), hcur⟩
        · simp [hce]
  | cons m rest ih =>
      intro cur p hcur
      unfold groupAux
      by_cases hai : isAI m = true
      · rw [if_pos hai]
        have hmt : isTool m = false := isAI_not_isTool hai
        have hfil : List.filter (fun x => isTool x) (m :: rest)
            = List.filter (fun x => isTool x) rest := by
          simp [List.filter_cons, hmt]
        have hrec := ih [] true (fun x hx => absurd hx (List.not_mem_nil x))
        by_cases hce : cur.isEmpty
        · have hcnil : cur = [] := by
            cases cur with
            | nil => rfl
            | cons a t => simp at hce
          rw [if_pos hce, hcnil, hfil]
          exact ⟨hrec.1, by simpa using hrec.2⟩
        · rw [if_neg hce]
          constructor
          · intro g hg
            rcases List.mem_cons.mp hg with hg | hg
            · subst hg
              exact ⟨fun hnil => hce (by rw [hnil]; rfl), hcur⟩
            · exact hrec.1 g hg
          · rw [List.flatten_cons, hfil]
            exact List.Sublist.append_left (by simpa using hrec.2) cur
      · rw [if_neg (by simp [hai])]
        by_cases hb : (isTool m && p && !m.isDiagnosis) = true
        · rw [if_pos hb]
          simp only [Bool.and_eq_true, Bool.not_eq_true'] at hb
          obtain ⟨⟨hmt, hp⟩, hmd⟩ := hb
          have hcur' : ∀ x ∈ cur ++ [m], isTool x = true ∧ x.isDiagnosis = false := by
            intro x hx
            rcases List.mem_append.mp hx with hx | hx
            · exact hcur x hx
            · rw [List.mem_singleton] at hx
              subst hx
              exact ⟨hmt, hmd⟩
          have hrec := ih (cur ++ [m]) p hcur'
          refine ⟨hrec.1, ?_⟩
          have hfil : List.filter (fun x => isTool x) (m :: rest)
              = m :: List.filter (fun x => isTool x) rest := by
            simp [List.filter_cons, hmt]
          rw [hfil]
          have h2 := hrec.2
          rw [List.append_assoc] at h2
          simpa using h2
        · rw [if_neg hb]
          by_cases hc : (!isTool m && p) = true
          · rw [if_pos hc]
            simp only [Bool.and_eq_true, Bool.not_eq_true'] at hc
            obtain ⟨hmt, hp⟩ := hc
            have hfil : List.filter (fun x => isTool x) (m :: rest)
                = List.filter (fun x => isTool x) rest := by
              simp [List.filter_cons, hmt]
            have hrec := ih [] false (fun x hx => absurd hx (List.not_mem_nil x))
            by_cases hce : cur.isEmpty
            · have hcnil : cur = [] := by
                cases cur with
                | nil => rfl
                | cons a t => simp at hce
              rw [if_pos hce, hcnil, hfil]
              exact ⟨hrec.1, by simpa using hrec.2⟩
            · rw [if_neg hce]
              constructor
              · intro g hg
                rcases List.mem_cons.mp hg with hg | hg
                · subst hg
                  exact ⟨fun hnil => hce (by rw [hnil]; rfl), hcur⟩
                · exact hrec.1 g hg
              · rw [List.flatten_cons, hfil]
                exact List.Sublist.append_left (by simpa using hrec.2) cur
          · rw [if_neg hc]
            have hrec := ih cur p hcur
            refine ⟨hrec.1, ?_⟩
            refine List.Sublist.trans hrec.2 (List.Sublist.append_left ?_ cur)
            by_cases ht : isTool m = true
            · rw [show List.filter (fun x => isTool x) (m :: rest)
                  = m :: List.filter (fun x => isTool x) rest by
                    simp [List.filter_cons, ht]]
              exact List.sublist_cons_self m (List.filter (fun x => isTool x) rest)
            · have ht' : isTool m = false := by
                simpa using ht
              rw [show List.filter (fun x => isTool x) (m :: rest)
                  = List.filter (fun x => isTool x) rest by
                    simp [List.filter_cons, ht']]

/-- C8: the transcript grouper's output groups are each non-empty and
contain only non-diagnosis tool-result messages, and the concatenation of
all groups (ignoring group boundaries) is a sublist of the transcript's
tool-result messages — the sublist embedding is exactly what makes the
groups pairwise non-overlapping and transcript-order-preserving. -/
theorem grouper_invariants (messages : List Message) :
    ((groupToolMessagesByAIMessage messages).all fun g =>
      !g.isEmpty && g.all fun x => isTool x && !x.isDiagnosis) = true
    ∧ ((groupToolMessagesByAIMessage messages).flatten).Sublist
        (messages.filter fun x => isTool x) := by
  have h := groupAux_sound messages [] false (by intro x hx; cases hx)
  constructor
  · rw [List.all_eq_true]
    intro g hg
    obtain ⟨hne, hall⟩ := h.1 g hg
    rw [Bool.and_eq_true]
    constructor
    · cases g with
      | nil => exact absurd rfl hne
      | cons a t => rfl
    · rw [List.all_eq_true]
      intro x hx
      obtain ⟨h1, h2⟩ := hall x hx
      simp [h1, h2]
  · simpa using h.2

/-- C7: for every message list forming at least 2 tool-invocation groups,
`shouldUseSmartRecovery` returns true whenever at least 2 diagnosis-flagged
tool results appear in the last 20 messages, and also whenever the stuck
pattern holds (some tool name appearing in an
AI-message-immediately-followed-by-error-tool-result pair at least 3 times
within the last 10 messages) — in both cases independently of the group
error rates, over which the statement quantifies universally. -/
theorem smartRecovery_forced_triggers (messages : List Message)
    (hg : 2 ≤ (groupToolMessagesByAIMessage messages).length)
    (h : 2 ≤ recentDiagnosisCount messages ∨ checkForStuckPattern messages = true) :
    shouldUseSmartRecovery messages = true := by
  unfold shouldUseSmartRecovery
  simp only []
  rw [if_neg (by omega)]
  rcases h with hd | hs
  · rw [if_pos hd]
  · by_cases hdc : 2 ≤ recentDiagnosisCount messages
    · rw [if_pos hdc]
    · rw [if_neg hdc]
      by_cases he : 3 ≤ (groupToolMessagesByAIMessage messages).length
          ∧ ∀ g ∈ lastN 3 (groupToolMessagesByAIMessage messages),
              (0.8 : ℚ) ≤ calculateErrorRate g
      · rw [if_pos he]
      · rw [if_neg he]
        exact hs

/-- Witness for C7: a concrete transcript with exactly two tool groups and
two recent diagnosis-flagged tool results triggers smart recovery. -/
theorem smartRecovery_forced_triggers_witness :
    shouldUseSmartRecovery sampleSmartRecoveryMessages = true :=
  smartRecovery_forced_triggers sampleSmartRecoveryMessages (by decide)
    (Or.inl (by decide))
